import Mathlib

/-!
Verification development for the train-traffic scheduling backend.

The definitions below are shallow embeddings of the Python source:
  * scheduler.py   : time conversion, request validation, CP-SAT model
                     construction and result extraction of
                     get_optimized_schedule,
  * main.py        : check_for_overlaps and the optimize endpoint pipeline,
  * ai_model.py    : compute_metrics and the delay-status bucketing of
                     predict_delays,
  * models.py      : the pydantic ScheduleRequest trains validator,
  * config.py      : the configuration constants (default values).

Machine arithmetic is on Nat and Int (Python ints are unbounded, so no
modular wrapping is needed).  Python exceptions are modelled with Option
and Except, and the CP-SAT solver is modelled as an oracle: a status plus
a candidate assignment, together with a predicate SatAssign stating that
the assignment satisfies exactly the constraints that the code posts on
the model (the CP-SAT contract for OPTIMAL and FEASIBLE results).
-/

/-! ## Time conversion (scheduler.py, time_to_minutes and minutes_to_time) -/

namespace TT

/-- Split a character list at every colon, mirroring Python's
str.split(":").  splitColon "08:00".data = ["08".data, "00".data]. -/
def splitColon (cs : List Char) : List (List Char) :=
  match cs with
  | [] => [[]]
  | c :: rest =>
    let r := splitColon rest
    if c = ':' then [] :: r
    else
      match r with
      | [] => [[c]]
      | g :: gs => (c :: g) :: gs

/-- Value of a decimal digit character, none for non-digits. -/
def digitVal (c : Char) : Option Nat :=
  if '0' ≤ c ∧ c ≤ '9' then some (c.toNat - '0'.toNat) else none

/-- Python int(...) on a non-empty all-digit string (the only shapes that
reach it here are regex-validated "HH"/"MM" pieces or fail anyway):
none models the ValueError raised on empty or non-digit input. -/
def natOfChars (cs : List Char) : Option Nat :=
  match cs with
  | [] => none
  | _ => cs.foldl (fun acc c => acc.bind fun a => (digitVal c).map fun d => a * 10 + d) (some 0)

/-- scheduler.time_to_minutes: parse "HH:MM" into minutes from midnight.
none models raising ValueError (missing colon, wrong part count,
non-numeric part, hours outside 0-23, minutes outside 0-59). -/
def time_to_minutes (s : String) : Option Nat :=
  match splitColon s.data with
  | [h, m] =>
    match natOfChars h, natOfChars m with
    | some hours, some minutes =>
      if hours ≤ 23 ∧ minutes ≤ 59 then some (hours * 60 + minutes) else none
    | _, _ => none
  | _ => none

/-- Python f"{n:02d}" for 0 ≤ n < 100: zero-padded two-digit rendering. -/
def two_digit (n : Nat) : String :=
  (if n < 10 then "0" else "") ++ toString n

/-- scheduler.minutes_to_time: minutes from midnight to an "HH:MM" string.
A negative argument raises inside the try block and the handler returns
"00:00"; otherwise the value is reduced modulo 24*60 = 1440 (the
"Handle day overflow" step) and rendered with divmod. -/
def minutes_to_time (minutes : Int) : String :=
  if minutes < 0 then "00:00"
  else
    let t : Nat := (minutes % 1440).toNat
    two_digit (t / 60) ++ ":" ++ two_digit (t % 60)

/-- A string is a well-formed "HH:MM" 24-hour rendering: two zero-padded
digits for an hour below 24, a colon, two zero-padded digits for a
minute below 60 (the shape matched by config.TIME_REGEX). -/
def validHHMM (s : String) : Prop :=
  ∃ h m : Nat, h < 24 ∧ m < 60 ∧ s = two_digit h ++ ":" ++ two_digit m

/-! ## Configuration constants (config.py default values) -/

/-- config.MAX_PLATFORMS default. -/
def MAX_PLATFORMS : Int := 10

/-- config.DWELL_MINUTES default. -/
def DWELL_MINUTES : Int := 2

/-! ## Data model (models.py) -/

/-- models.Train (pydantic model); optional fields carry their pydantic
defaults. -/
structure Train where
  train_id : String
  arrival : String
  departure : String
  priority : Int
  platform : Int
  scheduled : Option String := none
  actual_arrival : Option String := none
  status : Option String := some "scheduled"
  delay_minutes : Option Int := some 0
deriving DecidableEq, Repr

/-- models.ScheduleRequest. -/
structure ScheduleRequest where
  date : String
  trains : List Train
deriving DecidableEq, Repr

/-- models.ScheduleRequest._check_trains_not_empty: the pydantic
validator on the trains field.  An empty list and duplicate train ids
are rejected with a ValueError (modelled as Except.error). -/
def check_trains_not_empty (v : List Train) : Except String (List Train) :=
  if v = [] then .error "At least one train must be provided"
  else if (v.map (·.train_id)).dedup.length ≠ (v.map (·.train_id)).length then
    .error "Duplicate train IDs are not allowed"
  else .ok v

/-! ## Request validation (scheduler.validate_schedule_data) -/

/-- Arrival in minutes; on every path where this is used the time string
has already been validated, so the getD default is never the value
actually read (kept only for totality). -/
def arrMinI (t : Train) : Int := ((time_to_minutes t.arrival).getD 0 : Nat)

/-- Departure in minutes, same proviso as arrMinI. -/
def depMinI (t : Train) : Int := ((time_to_minutes t.departure).getD 0 : Nat)

/-- The time-format issues validate_schedule_data records for one train:
arrival is parsed first, then departure, then the ordering check
(arrival strictly before departure). -/
def trainTimeIssues (t : Train) : List String :=
  match time_to_minutes t.arrival with
  | none => ["Train " ++ t.train_id ++ ": Invalid time format '" ++ t.arrival ++ "': must be HH:MM"]
  | some a =>
    match time_to_minutes t.departure with
    | none => ["Train " ++ t.train_id ++ ": Invalid time format '" ++ t.departure ++ "': must be HH:MM"]
    | some d =>
      if d ≤ a then ["Train " ++ t.train_id ++ ": arrival time must be before departure time"]
      else []

/-- Issues recorded for one train given the set of ids seen before it. -/
def validateTrain (seen : List String) (t : Train) : List String :=
  (if t.train_id ∈ seen then ["Duplicate train ID: " ++ t.train_id] else [])
    ++ trainTimeIssues t
    ++ (if t.platform ≤ 0 ∨ MAX_PLATFORMS < t.platform then
          ["Train " ++ t.train_id ++ ": platform must be 1-" ++ toString MAX_PLATFORMS]
        else [])
    ++ (if t.priority < 1 then ["Train " ++ t.train_id ++ ": priority must be positive"] else [])

/-- The loop of validate_schedule_data, threading the seen-id set. -/
def validateLoop (seen : List String) : List Train → List String
  | [] => []
  | t :: ts => validateTrain seen t ++ validateLoop (t.train_id :: seen) ts

/-- scheduler.validate_schedule_data: aggregated list of issues;
an empty trains list short-circuits with a single issue. -/
def validate_schedule_data (data : ScheduleRequest) : List String :=
  if data.trains = [] then ["No trains provided"]
  else validateLoop [] data.trains

/-! ## The CP-SAT model and solver oracle (scheduler.get_optimized_schedule)

The solver itself (ortools CP-SAT) is external.  It is modelled as an
oracle consisting of the returned status together with the values the
solver would report for the decision variables the code creates
(arrival_vars, platform_vars, and the per-platform presence literals).
SatAssign states that those values satisfy exactly the constraints the
code posts on the model; by the CP-SAT contract this holds whenever the
status is OPTIMAL or FEASIBLE. -/

/-- cp_model solve statuses relevant to the code. -/
inductive CpStatus where
  | OPTIMAL
  | FEASIBLE
  | INFEASIBLE
  | UNKNOWN
  | MODEL_INVALID
deriving DecidableEq, Repr

/-- The solver oracle: status plus reported variable values, indexed by
the train's position in the request. -/
structure SolverOracle where
  status : CpStatus
  arrival : Nat → Int
  platform : Nat → Int
  onPlatform : Nat → Int → Bool

/-- Python max over the flattened list of all parsed arrival/departure
minutes.  All parsed minutes are non-negative, so folding max from 0
agrees with Python max on every non-empty list that reaches this
computation (an empty list raises earlier). -/
def maxTimeOf (ts : List Train) : Int :=
  ts.foldl (fun acc t => max (max acc (arrMinI t)) (depMinI t)) 0

/-- horizon = max_time + 180 ("3 hours buffer for delays"). -/
def horizonOf (data : ScheduleRequest) : Int := maxTimeOf data.trains + 180

/-- The fixed interval length used when building the optional interval
variables: requested duration, replaced by 5 when non-positive (the
"non-positive duration" warning branch; unreachable once validation
has passed, which guarantees arrival strictly before departure). -/
def trainDuration (t : Train) : Int :=
  let d := depMinI t - arrMinI t
  if d ≤ 0 then 5 else d

/-- The constraint system the code posts on the CP model, as a predicate
on the oracle's reported values:
1. arrival_vars[i] has domain [original_arrival, horizon];
2. platform_vars[i] has domain [1, MAX_PLATFORMS];
3. each presence literal enforces platform_vars[i] == p (OnlyEnforceIf);
4. AddExactlyOne over the per-platform presence literals of each train;
5. AddNoOverlap per platform over the optional intervals
   [arrival, arrival + duration + DWELL_MINUTES) present on it. -/
def SatAssign (trains : List Train) (horizon : Int) (o : SolverOracle) : Prop :=
  (∀ i (h : i < trains.length),
      arrMinI (trains.get ⟨i, h⟩) ≤ o.arrival i ∧ o.arrival i ≤ horizon) ∧
  (∀ i (_ : i < trains.length), 1 ≤ o.platform i ∧ o.platform i ≤ MAX_PLATFORMS) ∧
  (∀ i (_ : i < trains.length), ∀ p ∈ Finset.Icc (1 : Int) MAX_PLATFORMS,
      o.onPlatform i p = true → o.platform i = p) ∧
  (∀ i (_ : i < trains.length), ∃ p ∈ Finset.Icc (1 : Int) MAX_PLATFORMS,
      o.onPlatform i p = true ∧
      ∀ q ∈ Finset.Icc (1 : Int) MAX_PLATFORMS, o.onPlatform i q = true → q = p) ∧
  (∀ p ∈ Finset.Icc (1 : Int) MAX_PLATFORMS,
    ∀ i (hi : i < trains.length), ∀ j (hj : j < trains.length), i ≠ j →
      o.onPlatform i p = true → o.onPlatform j p = true →
      o.arrival i + trainDuration (trains.get ⟨i, hi⟩) + DWELL_MINUTES ≤ o.arrival j ∨
      o.arrival j + trainDuration (trains.get ⟨j, hj⟩) + DWELL_MINUTES ≤ o.arrival i)

instance (trains : List Train) (horizon : Int) (o : SolverOracle) :
    Decidable (SatAssign trains horizon o) := by
  unfold SatAssign
  infer_instance

/-! ## Objective function terms (scheduler.get_optimized_schedule, step 4) -/

/-- config/DELAY_COST_WEIGHT as hard-coded in the function body. -/
def DELAY_COST_WEIGHT : Int := 10

/-- config/PLATFORM_CHANGE_COST as hard-coded in the function body. -/
def PLATFORM_CHANGE_COST : Int := 5

/-- priority_weight = max(1, 5 - train.priority). -/
def priority_weight (priority : Int) : Int := max 1 (5 - priority)

/-- A CP boolean literal read as the integer it contributes to a sum. -/
def changedBit (b : Bool) : Int := if b then 1 else 0

/-- The two objective terms appended for one train: the delay term
delay * priority_weight * DELAY_COST_WEIGHT and the platform-change
term literal * priority_weight * PLATFORM_CHANGE_COST. -/
def train_cost_terms (t : Train) (delay : Int) (platform_changed : Bool) : List Int :=
  [delay * priority_weight t.priority * DELAY_COST_WEIGHT,
   changedBit platform_changed * priority_weight t.priority * PLATFORM_CHANGE_COST]

/-- The full minimized objective evaluated at the oracle's values, with
delay_var = arrival_vars[i] - original_arrival and the change literal
true exactly when the assigned platform differs from the request. -/
def objectiveOf (o : SolverOracle) : Nat → List Train → Int
  | _, [] => 0
  | i, t :: ts =>
    (train_cost_terms t (o.arrival i - arrMinI t) (o.platform i != t.platform)).sum
      + objectiveOf o (i + 1) ts

/-! ## Result construction (scheduler.get_optimized_schedule, steps 5-6) -/

/-- One output train record: the keys of train.model_dump() plus the
keys the function may add.  none models an absent dictionary key. -/
structure TrainOut where
  train_id : String
  arrival : String
  departure : String
  priority : Int
  platform : Int
  scheduled : Option String
  actual_arrival : Option String
  status : Option String
  delay_minutes : Option Int
  platform_changed : Option Bool := none
  optimization_note : Option String := none
deriving DecidableEq, Repr

/-- The optimization_stats block.  solve_time_seconds and
objective_value are wall-clock quantities reported by the external
solver and are not modelled. -/
structure OptStats where
  status : String
  reason : Option String := none
  error : Option String := none
  fallback_used : Option Bool := none
  total_delay_minutes : Option Int := none
  platform_changes : Option Int := none
deriving DecidableEq, Repr

/-- The dictionary returned by get_optimized_schedule. -/
structure ScheduleResult where
  date : String
  trains : List TrainOut
  optimization_stats : Option OptStats := none
deriving DecidableEq, Repr

/-- train.model_dump(): the train's fields as a plain record. -/
def model_dump (t : Train) : TrainOut :=
  { train_id := t.train_id, arrival := t.arrival, departure := t.departure,
    priority := t.priority, platform := t.platform, scheduled := t.scheduled,
    actual_arrival := t.actual_arrival, status := t.status,
    delay_minutes := t.delay_minutes }

/-- A fallback record: model_dump plus the original arrival kept under
"scheduled" and an explanatory note. -/
def fallback_train (note : String) (t : Train) : TrainOut :=
  { model_dump t with scheduled := some t.arrival, optimization_note := some note }

/-- The emergency fallback of the outermost except handler: every train
with original values, stats status "error".  Python slices the error
text to 100 characters (by code point). -/
def emergency_fallback (data : ScheduleRequest) (errmsg : String) : ScheduleResult :=
  { date := data.date,
    trains := data.trains.map
      (fallback_train ("Original schedule (optimization error: "
        ++ String.mk (errmsg.data.take 100) ++ ")")),
    optimization_stats := some
      { status := "error", error := some errmsg, fallback_used := some true } }

/-- The status_names dictionary with its f"STATUS_{status}" default
(the default is only reachable for the two success statuses, whose
cp_model numeric values are 4 and 2, and the code never consults the
dictionary for them). -/
def status_name : CpStatus → String
  | .UNKNOWN => "UNKNOWN"
  | .MODEL_INVALID => "MODEL_INVALID"
  | .INFEASIBLE => "INFEASIBLE"
  | .OPTIMAL => "STATUS_4"
  | .FEASIBLE => "STATUS_2"

/-- The solver-failed fallback: every train with original values plus
the failure note, stats status "failed" with the status name as reason. -/
def failure_fallback (data : ScheduleRequest) (name : String) : ScheduleResult :=
  { date := data.date,
    trains := data.trains.map
      (fallback_train ("Original schedule (optimization failed: " ++ name ++ ")")),
    optimization_stats := some
      { status := "failed", reason := some name, fallback_used := some true } }

/-- The status written for an optimized train (scheduler.py line 251):
"delayed" if delay_minutes > 5 else "on_time" — a two-way bucket. -/
def scheduler_status_bucket (delay : Int) : String :=
  if 5 < delay then "delayed" else "on_time"

/-- The updated dictionary built for train i from the solver values:
new_departure = new_arrival + (requested duration), delay =
new_arrival - original_arrival, status two-way bucketed at 5 minutes,
times rendered through minutes_to_time. -/
def processed_train (o : SolverOracle) (i : Nat) (t : Train) : TrainOut :=
  let original_arrival := arrMinI t
  let duration := depMinI t - arrMinI t
  let new_arrival := o.arrival i
  let new_departure := new_arrival + duration
  let new_platform := o.platform i
  let delay := new_arrival - original_arrival
  { model_dump t with
    platform := new_platform,
    arrival := minutes_to_time new_arrival,
    departure := minutes_to_time new_departure,
    delay_minutes := some delay,
    scheduled := some t.arrival,
    status := some (scheduler_status_bucket delay),
    platform_changed := some (decide (new_platform ≠ t.platform)) }

/-- The result-processing loop: a train whose solution processing raises
falls back to its plain model_dump(); the others get their processed
record.  procFail i models an exception at position i. -/
def buildTrains (o : SolverOracle) (procFail : Nat → Bool) : Nat → List Train → List TrainOut
  | _, [] => []
  | i, t :: ts =>
    (if procFail i then model_dump t else processed_train o i t)
      :: buildTrains o procFail (i + 1) ts

/-- total_delay accumulated over the successfully processed trains. -/
def totalDelay (o : SolverOracle) (procFail : Nat → Bool) : Nat → List Train → Int
  | _, [] => 0
  | i, t :: ts =>
    (if procFail i then 0 else o.arrival i - arrMinI t) + totalDelay o procFail (i + 1) ts

/-- platform_changes counted over the successfully processed trains. -/
def platformChanges (o : SolverOracle) (procFail : Nat → Bool) : Nat → List Train → Int
  | _, [] => 0
  | i, t :: ts =>
    (if procFail i = false ∧ o.platform i ≠ t.platform then 1 else 0)
      + platformChanges o procFail (i + 1) ts

/-- The successful-solve result. -/
def successResult (data : ScheduleRequest) (o : SolverOracle) (procFail : Nat → Bool)
    (statusStr : String) : ScheduleResult :=
  { date := data.date,
    trains := buildTrains o procFail 0 data.trains,
    optimization_stats := some
      { status := statusStr,
        total_delay_minutes := some (totalDelay o procFail 0 data.trains),
        platform_changes := some (platformChanges o procFail 0 data.trains) } }

/-- The variable-construction loop of step 2: the first train whose
variable construction raises (conFail i) re-raises ValueError out of
the whole function body, which the outermost handler turns into the
emergency fallback.  Returns that first failing train, if any. -/
def firstCF (conFail : Nat → Bool) : Nat → List Train → Option Train
  | _, [] => none
  | i, t :: ts => if conFail i then some t else firstCF conFail (i + 1) ts

/-- scheduler.get_optimized_schedule.  Control flow of the source:
1. validation issues raise ValueError, caught by the outermost handler
   (emergency fallback);
2. n == 0 returns a bare result (unreachable: validation catches it);
3. a variable-construction failure raises, caught by the outermost
   handler (emergency fallback for the whole batch);
4. OPTIMAL/FEASIBLE builds the processed result;
5. any other status builds the failed fallback.
The function is total: no branch raises to the caller. -/
def get_optimized_schedule (data : ScheduleRequest) (o : SolverOracle)
    (conFail procFail : Nat → Bool) : ScheduleResult :=
  let issues := validate_schedule_data data
  if issues ≠ [] then
    emergency_fallback data ("Invalid schedule data: " ++ String.intercalate "; " issues)
  else if data.trains = [] then
    { date := data.date, trains := [] }
  else
    match firstCF conFail 0 data.trains with
    | some t =>
      emergency_fallback data ("Failed to create optimization variables for train " ++ t.train_id)
    | none =>
      match o.status with
      | .OPTIMAL => successResult data o procFail "optimal"
      | .FEASIBLE => successResult data o procFail "feasible"
      | s => failure_fallback data (status_name s)

/-! ## Pre-optimization conflict detection (main.check_for_overlaps) -/

/-- One entry of the conflicts list built by check_for_overlaps. -/
structure Conflict where
  platform : Int
  train1 : String
  train2 : String
  train1_departure : String
  train2_arrival : String
deriving DecidableEq, Repr

/-- The sort key of sorted(trains_on_platform, key=strptime(arrival)):
trains reaching this point carry pydantic-validated "HH:MM" strings, on
which datetime order coincides with minutes-from-midnight order.  The
getD default is never the value read on those inputs. -/
def arrKey (t : Train) : Nat := (time_to_minutes t.arrival).getD 0

/-- Python sorted by arrival.  Python's sort is stable, and a stable
sort's output is uniquely determined by the key order and stability,
so the (stable) insertion sort is an exact model of it. -/
def sortByArrival (ts : List Train) : List Train :=
  List.insertionSort (fun a b => arrKey a ≤ arrKey b) ts

/-- The keys of the by_platform dict in insertion order: platforms in
order of first occurrence. -/
def platformsInOrder (ts : List Train) : List Int :=
  ts.foldl (fun acc t => if t.platform ∈ acc then acc else acc ++ [t.platform]) []

/-- The conflict recorded for one adjacent pair: parse the earlier
train's departure and the later train's arrival (the try block; a
parse failure logs and records nothing) and record an entry exactly
when the departure strictly exceeds the arrival.  No dwell buffer
enters the comparison. -/
def pairConflict (p : Int) (cur nxt : Train) : List Conflict :=
  match time_to_minutes cur.departure, time_to_minutes nxt.arrival with
  | some cd, some na =>
    if na < cd then
      [{ platform := p, train1 := cur.train_id, train2 := nxt.train_id,
         train1_departure := cur.departure, train2_arrival := nxt.arrival }]
    else []
  | _, _ => []

/-- The inner loop for i in range(len(sorted_trains) - 1). -/
def adjacentConflicts (p : Int) : List Train → List Conflict
  | [] => []
  | [_] => []
  | a :: b :: rest => pairConflict p a b ++ adjacentConflicts p (b :: rest)

/-- The full conflicts list over all platform groups (groups carry the
input order of their trains, as dict setdefault appends do). -/
def conflictsOf (trains : List Train) : List Conflict :=
  (platformsInOrder trains).flatMap fun p =>
    adjacentConflicts p (sortByArrival (trains.filter (fun t => t.platform == p)))

/-- An HTTPException payload. -/
structure HTTPError where
  status_code : Int
  detail : String
deriving DecidableEq, Repr

/-- The detail line rendered for one conflict entry. -/
def conflict_line (c : Conflict) : String :=
  "Platform " ++ toString c.platform ++ ": " ++ c.train1 ++ " (departs "
    ++ c.train1_departure ++ ") conflicts with " ++ c.train2 ++ " (arrives "
    ++ c.train2_arrival ++ ")"

/-- main.check_for_overlaps: raises HTTPException 400 listing every
conflict found when at least one exists, returns None otherwise. -/
def check_for_overlaps (trains : List Train) : Except HTTPError Unit :=
  let conflicts := conflictsOf trains
  if conflicts = [] then .ok ()
  else .error
    { status_code := 400,
      detail := "Schedule conflicts detected: "
        ++ String.intercalate "; " (conflicts.map conflict_line) }

/-- The core pipeline of the optimize endpoint (main.py): reject an
empty batch with 400, then run the conflict check (whose HTTPException
propagates, so no optimization is attempted), then optimize.  The
excluded collaborators (delay-prediction annotation, DB save,
broadcast, output sorting, per-train explanation strings) do not touch
the fields the theorems below read. -/
def optimize (data : ScheduleRequest) (o : SolverOracle)
    (conFail procFail : Nat → Bool) : Except HTTPError ScheduleResult :=
  if data.trains = [] then .error { status_code := 400, detail := "No trains provided" }
  else
    match check_for_overlaps data.trains with
    | .error e => .error e
    | .ok _ => .ok (get_optimized_schedule data o conFail procFail)

/-! ## Metrics engine (ai_model.compute_metrics) -/

/-- The value found under a train dict's "delay_minutes" key: the key
may be absent, hold a non-numeric value (e.g. None), or hold a number
(Python also admits floats; the schedules built here carry ints). -/
inductive DelayVal where
  | absent
  | nonnum
  | num (n : Int)
deriving DecidableEq, Repr

/-- A schedule-shaped train mapping as compute_metrics consumes it:
every field may be absent (none) since the engine is tolerant of
missing keys.  platform none covers both an absent key and a
non-numeric value (neither is counted as used). -/
structure MTrain where
  train_id : Option String := none
  arrival : Option String := none
  departure : Option String := none
  platform : Option Int := none
  delay_minutes : DelayVal := DelayVal.num 0
  status : Option String := none
deriving DecidableEq, Repr

/-- t.get("delay_minutes", 0) followed by the isinstance check: an
absent key defaults to the number 0, a numeric value passes through,
anything else falls to the status-text branch (none). -/
def delayValue (t : MTrain) : Option Int :=
  match t.delay_minutes with
  | .absent => some 0
  | .num n => some n
  | .nonnum => none

/-- cs begins with pre (character-level comparison). -/
def leadsWith : List Char → List Char → Bool
  | [], _ => true
  | _ :: _, [] => false
  | a :: as, b :: bs => a = b && leadsWith as bs

/-- Python "sub in s" on strings: sub occurs contiguously in hay. -/
def containsSeq (hay sub : List Char) : Bool :=
  match hay with
  | [] => sub.isEmpty
  | _ :: rest => leadsWith sub hay || containsSeq rest sub

/-- any(word in status for word in words). -/
def statusWordAny (status : String) (words : List String) : Bool :=
  words.any (fun w => containsSeq status.data w.data)

/-- The loop state of compute_metrics. -/
structure MAcc where
  times : List Int := []
  delays : List Int := []
  platforms_used : List Int := []
  punctual_count : Nat := 0
  delayed_count : Nat := 0
deriving DecidableEq, Repr

/-- One iteration of the compute_metrics loop: an unparseable or absent
arrival/departure time skips the train entirely (continue); otherwise
both times are collected, a positive numeric platform is added to the
used set, and the delay analysis runs — a numeric delay (including the
0 an absent key defaults to) joins the delays list and buckets
punctual/delayed at 5 minutes, while a non-numeric delay is bucketed
from the lowercased status text only. -/
def metricsStep (acc : MAcc) (t : MTrain) : MAcc :=
  match t.arrival.bind time_to_minutes, t.departure.bind time_to_minutes with
  | some a, some d =>
    let acc1 := { acc with times := acc.times ++ [(a : Int), (d : Int)] }
    let acc2 :=
      match t.platform with
      | some p =>
        if 0 < p ∧ p ∉ acc1.platforms_used then
          { acc1 with platforms_used := acc1.platforms_used ++ [p] }
        else acc1
      | none => acc1
    match delayValue t with
    | some n =>
      if n ≤ 5 then
        { acc2 with delays := acc2.delays ++ [n], punctual_count := acc2.punctual_count + 1 }
      else
        { acc2 with delays := acc2.delays ++ [n], delayed_count := acc2.delayed_count + 1 }
    | none =>
      let st := (t.status.getD "").toLower
      if statusWordAny st ["on", "time", "punctual"] then
        { acc2 with punctual_count := acc2.punctual_count + 1 }
      else if statusWordAny st ["delay", "late"] then
        { acc2 with delayed_count := acc2.delayed_count + 1 }
      else acc2
  | _, _ => acc

/-- The four KPIs, as exact rationals. -/
structure Metrics where
  throughput_trains_per_hr : ℚ
  avg_delay_minutes : ℚ
  platform_utilization_pct : ℚ
  punctuality_pct : ℚ
deriving DecidableEq, Repr

/-- Python round(x, 2) on the exact rational value.  (Python rounds the
nearest float half to even; every value the theorems below evaluate is
exactly representable and away from a half-way point, where the two
conventions agree.) -/
def round2 (q : ℚ) : ℚ := (round (q * 100) : ℤ) / 100

/-- ai_model.compute_metrics with the default max_platforms.  Times are
datetimes over one day, so the span in hours is the span in minutes
over 60. -/
def compute_metrics (trains : List MTrain) : Metrics :=
  if trains = [] then ⟨0, 0, 0, 0⟩
  else
    let acc := trains.foldl metricsStep {}
    let operating_hours : ℚ :=
      match acc.times with
      | [] => 1
      | x :: xs => max (((xs.foldl max x - xs.foldl min x : Int) : ℚ) / 60) 1
    let total_trains : ℚ := trains.length
    { throughput_trains_per_hr := round2 (total_trains / operating_hours),
      avg_delay_minutes :=
        if acc.delays = [] then 0 else round2 ((acc.delays.sum : ℚ) / acc.delays.length),
      platform_utilization_pct :=
        round2 (((acc.platforms_used.length : ℚ) / (MAX_PLATFORMS : ℚ)) * 100),
      punctuality_pct :=
        if 0 < trains.length then round2 (((acc.punctual_count : ℚ) / total_trains) * 100)
        else 0 }

/-- The delay-status bucketing of ai_model.predict_delays (three-way:
on_time up to 5 minutes, minor_delay up to 15, delayed above). -/
def ai_status_bucket (predicted_delay : Int) : String :=
  if predicted_delay ≤ 5 then "on_time"
  else if predicted_delay ≤ 15 then "minor_delay"
  else "delayed"

/-! ## Claim-side formalizations

These definitions follow the words of the specification sentences the
claims quote (not the source); the theorems below compare them with the
source-side definitions above. -/

/-- Departure sort-value twin of arrKey (claim-side comparisons). -/
def depKey (t : Train) : Nat := (time_to_minutes t.departure).getD 0

/-- Spec 4.2: within one sorted platform group, one conflict entry for
every adjacent pair whose earlier requested departure strictly exceeds
the later requested arrival — with no dwell buffer in the comparison. -/
def spec_group_conflicts (p : Int) (sorted : List Train) : List Conflict :=
  (sorted.zip sorted.tail).filterMap fun ab =>
    if arrKey ab.2 < depKey ab.1 then
      some { platform := p, train1 := ab.1.train_id, train2 := ab.2.train_id,
             train1_departure := ab.1.departure, train2_arrival := ab.2.arrival }
    else none

/-- Spec 4.2: the full list of conflicts over the platform groups. -/
def spec_conflicts (trains : List Train) : List Conflict :=
  (platformsInOrder trains).flatMap fun p =>
    spec_group_conflicts p (sortByArrival (trains.filter (fun t => t.platform == p)))

/-- Claim C6: the average delay the claim asserts — the mean over
exactly the trains carrying a numeric delay value (an absent key does
not count as numeric zero there). -/
def claim_avg_delay (ts : List MTrain) : ℚ :=
  let ds : List Int :=
    ts.filterMap fun t => match t.delay_minutes with | .num n => some n | _ => none
  if ds = [] then 0 else round2 ((ds.sum : ℚ) / ds.length)

/-- Claim C8: the three-threshold status bucketing the claim asserts
for every optimized train, spelled with the code's own labels. -/
def claim_status_bucket (delay : Int) : String :=
  if delay ≤ 5 then "on_time"
  else if delay ≤ 15 then "minor_delay"
  else "delayed"

/-- Rows with parseable arrival and departure times — the trains the
compute_metrics loop does not skip with continue. -/
def includedRows (ts : List MTrain) : List MTrain :=
  ts.filter fun t =>
    (t.arrival.bind time_to_minutes).isSome && (t.departure.bind time_to_minutes).isSome

/-! ## Concrete instances used by witnesses and counterexamples -/

/-- Two trains contending for platform 1 with overlapping requests. -/
def exTrainA : Train :=
  { train_id := "EXP101", arrival := "08:00", departure := "08:30", priority := 1, platform := 1 }

/-- Second train of the running example. -/
def exTrainB : Train :=
  { train_id := "LOC202", arrival := "08:10", departure := "08:40", priority := 2, platform := 1 }

/-- The running example request. -/
def exData : ScheduleRequest := { date := "2025-01-01", trains := [exTrainA, exTrainB] }

/-- A feasible solver answer for exData: the second train is delayed to
512 minutes so the two dwell-buffered intervals [480, 512) and
[512, 544) on platform 1 are disjoint. -/
def exOracle : SolverOracle :=
  { status := .OPTIMAL,
    arrival := fun i => if i = 0 then 480 else 512,
    platform := fun _ => 1,
    onPlatform := fun _ p => decide (p = 1) }

/-- An infeasible-status oracle (the reported values are irrelevant on
that path). -/
def exInfeasibleOracle : SolverOracle :=
  { status := .INFEASIBLE,
    arrival := fun _ => 0,
    platform := fun _ => 1,
    onPlatform := fun _ p => decide (p = 1) }

/-- A feasible solver answer for exData delaying the first train by 10
minutes (intervals [490, 522) and [522, 554) on platform 1). -/
def c8Oracle : SolverOracle :=
  { status := .OPTIMAL,
    arrival := fun i => if i = 0 then 490 else 522,
    platform := fun _ => 1,
    onPlatform := fun _ p => decide (p = 1) }

/-- The conflict-detector example from the spec: 08:00-08:05 and
08:03-08:08 both requesting platform 1. -/
def c5TrainA : Train :=
  { train_id := "T1", arrival := "08:00", departure := "08:05", priority := 1, platform := 1 }

/-- Second spec-example train. -/
def c5TrainB : Train :=
  { train_id := "T2", arrival := "08:03", departure := "08:08", priority := 1, platform := 1 }

/-- The spec-example request. -/
def c5Data : ScheduleRequest := { date := "2025-01-01", trains := [c5TrainA, c5TrainB] }

/-- A metrics row with a numeric 10-minute delay. -/
def c6RowA : MTrain :=
  { arrival := some "08:00", departure := some "09:00", platform := some 1,
    delay_minutes := .num 10 }

/-- A metrics row whose delay_minutes key is absent. -/
def c6RowB : MTrain :=
  { arrival := some "08:30", departure := some "08:45", platform := some 1,
    delay_minutes := .absent, status := some "cancelled" }

/-- The two-row metrics example. -/
def c6Rows : List MTrain := [c6RowA, c6RowB]

/-- A late-evening train for the midnight-wrap example. -/
def c10Train : Train :=
  { train_id := "NGT900", arrival := "23:00", departure := "23:55", priority := 1, platform := 1 }

/-- A request holding only the late-evening train. -/
def c10Data : ScheduleRequest := { date := "2025-01-01", trains := [c10Train] }

/-- A feasible solver answer delaying the late-evening train to 23:50,
pushing its departure (1430 + 55 = 1485 minutes) past midnight;
horizon is 1435 + 180 = 1615. -/
def c10Oracle : SolverOracle :=
  { status := .OPTIMAL,
    arrival := fun _ => 1430,
    platform := fun _ => 1,
    onPlatform := fun _ p => decide (p = 1) }

/-! ## Helper lemmas -/

theorem validate_empty (data : ScheduleRequest) (h : data.trains = []) :
    validate_schedule_data data = ["No trains provided"] := by
  simp [validate_schedule_data, h]

theorem trains_ne_nil_of_validate (data : ScheduleRequest)
    (hv : validate_schedule_data data = []) : data.trains ≠ [] := by
  intro h
  rw [validate_empty data h] at hv
  exact List.cons_ne_nil _ _ hv

theorem firstCF_none_of_false (cf : Nat → Bool) (hcf : ∀ k, cf k = false) :
    ∀ k ts, firstCF cf k ts = none := by
  intro k ts
  induction ts generalizing k with
  | nil => rfl
  | cons t ts ih => simp [firstCF, hcf, ih]

theorem firstCF_isSome_of_mem (cf : Nat → Bool) :
    ∀ (ts : List Train) (k : Nat), (∃ i, i < ts.length ∧ cf (k + i) = true) →
      ∃ t, firstCF cf k ts = some t := by
  intro ts
  induction ts with
  | nil => intro k ⟨i, hi, _⟩; exact absurd hi (Nat.not_lt_zero i)
  | cons t ts ih =>
    intro k ⟨i, hi, hcf⟩
    by_cases h : cf k = true
    · exact ⟨t, by simp [firstCF, h]⟩
    · have hk : firstCF cf k (t :: ts) = firstCF cf (k + 1) ts := by
        simp [firstCF, h]
      rw [hk]
      rcases i with _ | i
      · exact absurd hcf (by simpa using h)
      · have hi2 : i < ts.length := by simp at hi; omega
        exact ih (k + 1) ⟨i, hi2, by rw [show k + 1 + i = k + (i + 1) by omega]; exact hcf⟩

theorem buildTrains_get? (o : SolverOracle) (procFail : Nat → Bool) :
    ∀ (ts : List Train) (k i : Nat) (h : i < ts.length),
      (buildTrains o procFail k ts).get? i
        = some (if procFail (k + i) then model_dump (ts.get ⟨i, h⟩)
                else processed_train o (k + i) (ts.get ⟨i, h⟩)) := by
  intro ts
  induction ts with
  | nil => intro k i h; exact absurd h (Nat.not_lt_zero i)
  | cons t ts ih =>
    intro k i h
    match i with
    | 0 => simp [buildTrains]
    | Nat.succ i =>
      have h2 : i < ts.length := Nat.lt_of_succ_lt_succ h
      have heq : (t :: ts).get ⟨i + 1, h⟩ = ts.get ⟨i, h2⟩ := rfl
      have hk : k + (i + 1) = (k + 1) + i := by omega
      calc (buildTrains o procFail k (t :: ts)).get? (i + 1)
          = (buildTrains o procFail (k + 1) ts).get? i := rfl
        _ = some (if procFail ((k + 1) + i) then model_dump (ts.get ⟨i, h2⟩)
                  else processed_train o ((k + 1) + i) (ts.get ⟨i, h2⟩)) := ih (k + 1) i h2
        _ = _ := by rw [heq, hk]

theorem gos_reaches_solver (data : ScheduleRequest) (o : SolverOracle)
    (conFail procFail : Nat → Bool)
    (hv : validate_schedule_data data = []) (hcf : ∀ k, conFail k = false) :
    get_optimized_schedule data o conFail procFail
      = match o.status with
        | .OPTIMAL => successResult data o procFail "optimal"
        | .FEASIBLE => successResult data o procFail "feasible"
        | s => failure_fallback data (status_name s) := by
  have hne := trains_ne_nil_of_validate data hv
  simp only [get_optimized_schedule, hv, if_neg, firstCF_none_of_false conFail hcf]
  simp [hne]

/-! ## Claims -/

/-- C9: in the objective, every train's weight is max(1, 5 − priority)
(the configured constant K is the literal 5): it is at least 1, it is
non-increasing in the priority number, it is the constant 1 for every
priority ≥ 4, and the train's two appended cost terms — the delay term
and the platform-change term — both carry this same weight as a common
factor. -/
theorem c9_priority_weight_objective (t : Train) (q delay : Int) (changed : Bool)
    (hpq : t.priority ≤ q) :
    priority_weight t.priority = max 1 (5 - t.priority) ∧
    1 ≤ priority_weight t.priority ∧
    priority_weight q ≤ priority_weight t.priority ∧
    (4 ≤ t.priority → priority_weight t.priority = 1) ∧
    (train_cost_terms t delay changed).sum
      = priority_weight t.priority
          * (DELAY_COST_WEIGHT * delay + PLATFORM_CHANGE_COST * changedBit changed) := by
  refine ⟨rfl, ?_, ?_, ?_, ?_⟩
  · simp only [priority_weight]; omega
  · simp only [priority_weight]; omega
  · intro h; simp only [priority_weight]; omega
  · simp only [train_cost_terms, changedBit, DELAY_COST_WEIGHT, PLATFORM_CHANGE_COST,
      List.sum_cons, List.sum_nil]
    cases changed <;> simp <;> ring

/-- Witness for C9 at a priority-1 train, q = 3, delay = 7, a platform
change present. -/
theorem c9_priority_weight_objective_witness :
    exTrainA.priority ≤ 3 ∧
    (priority_weight exTrainA.priority = max 1 (5 - exTrainA.priority) ∧
     1 ≤ priority_weight exTrainA.priority ∧
     priority_weight 3 ≤ priority_weight exTrainA.priority ∧
     (4 ≤ exTrainA.priority → priority_weight exTrainA.priority = 1) ∧
     (train_cost_terms exTrainA 7 true).sum
       = priority_weight exTrainA.priority
           * (DELAY_COST_WEIGHT * 7 + PLATFORM_CHANGE_COST * changedBit true)) :=
  ⟨by decide, c9_priority_weight_objective exTrainA 3 7 true (by decide)⟩

/-- C10: minutes_to_time is total on non-negative integers and reduces
its argument modulo 1440, always yielding a well-formed HH:MM string;
consequently on the concrete delayed run c10Data/c10Oracle the
optimizer renders arrival 1430 as "23:50" and departure 1485 as
"00:45", so the displayed departure compares lexicographically earlier
than the displayed arrival even though the 55-minute duration is
preserved (delay 50, duration depMinI − arrMinI = 55). -/
theorem c10_minutes_to_time_wrap (m : Int) (hm : 0 ≤ m) :
    minutes_to_time m = minutes_to_time (m % 1440) ∧
    validHHMM (minutes_to_time m) ∧
    ((processed_train c10Oracle 0 c10Train).arrival = "23:50" ∧
     (processed_train c10Oracle 0 c10Train).departure = "00:45" ∧
     (processed_train c10Oracle 0 c10Train).departure.data
       < (processed_train c10Oracle 0 c10Train).arrival.data ∧
     (processed_train c10Oracle 0 c10Train).delay_minutes = some 50 ∧
     depMinI c10Train - arrMinI c10Train = 55) := by
  have h0 : ¬ m < 0 := by omega
  have h1 : (0 : Int) ≤ m % 1440 := Int.emod_nonneg m (by norm_num)
  have h2 : m % 1440 < 1440 := Int.emod_lt_of_pos m (by norm_num)
  refine ⟨?_, ?_, by decide⟩
  · simp only [minutes_to_time, if_neg h0, if_neg (show ¬ m % 1440 < 0 by omega)]
    rw [Int.emod_emod_of_dvd m (dvd_refl 1440)]
  · refine ⟨(m % 1440).toNat / 60, (m % 1440).toNat % 60, ?_, ?_, ?_⟩
    · omega
    · exact Nat.mod_lt _ (by norm_num)
    · simp [minutes_to_time, h0]

/-- C1: a successful solve's reported values satisfy the posted
constraint system (SatAssign, the CP-SAT contract for OPTIMAL and
FEASIBLE), and then no two distinct trains assigned the same platform
have overlapping occupancy intervals, train i occupying
[a_i, d_i + DWELL_MINUTES) with d_i = a_i + requested duration.  The
hypothesis hdur (arrival strictly before departure per train) is
guaranteed by validation on every reachable solve and makes the
model's fixed interval length coincide with the requested duration. -/
theorem c1_no_platform_overlap (data : ScheduleRequest) (o : SolverOracle)
    (_hst : o.status = CpStatus.OPTIMAL ∨ o.status = CpStatus.FEASIBLE)
    (hsat : SatAssign data.trains (horizonOf data) o)
    (hdur : ∀ i (h : i < data.trains.length),
      arrMinI (data.trains.get ⟨i, h⟩) < depMinI (data.trains.get ⟨i, h⟩))
    (i j : Nat) (hi : i < data.trains.length) (hj : j < data.trains.length)
    (hij : i ≠ j) (hplat : o.platform i = o.platform j) :
    (o.arrival i + (depMinI (data.trains.get ⟨i, hi⟩) - arrMinI (data.trains.get ⟨i, hi⟩)))
        + DWELL_MINUTES ≤ o.arrival j ∨
    (o.arrival j + (depMinI (data.trains.get ⟨j, hj⟩) - arrMinI (data.trains.get ⟨j, hj⟩)))
        + DWELL_MINUTES ≤ o.arrival i := by
  obtain ⟨hb, hpb, honly, hone, hnov⟩ := hsat
  obtain ⟨p, hpmem, hip, _⟩ := hone i hi
  obtain ⟨q, hqmem, hjq, _⟩ := hone j hj
  have hpi : o.platform i = p := honly i hi p hpmem hip
  have hqj : o.platform j = q := honly j hj q hqmem hjq
  have hpq : p = q := by rw [← hpi, ← hqj, hplat]
  subst hpq
  have hdisj := hnov p hpmem i hi j hj hij hip hjq
  have hdi : trainDuration (data.trains.get ⟨i, hi⟩)
      = depMinI (data.trains.get ⟨i, hi⟩) - arrMinI (data.trains.get ⟨i, hi⟩) := by
    have := hdur i hi
    simp only [trainDuration]
    rw [if_neg]
    omega
  have hdj : trainDuration (data.trains.get ⟨j, hj⟩)
      = depMinI (data.trains.get ⟨j, hj⟩) - arrMinI (data.trains.get ⟨j, hj⟩) := by
    have := hdur j hj
    simp only [trainDuration]
    rw [if_neg]
    omega
  rw [hdi, hdj] at hdisj
  exact hdisj

/-- Witness for C1 on exData with the feasible answer exOracle,
instantiated at the pair of trains 0 and 1. -/
theorem c1_no_platform_overlap_witness :
    ((exOracle.status = CpStatus.OPTIMAL ∨ exOracle.status = CpStatus.FEASIBLE) ∧
     SatAssign exData.trains (horizonOf exData) exOracle ∧
     (∀ i (h : i < exData.trains.length),
        arrMinI (exData.trains.get ⟨i, h⟩) < depMinI (exData.trains.get ⟨i, h⟩)) ∧
     (0 : Nat) ≠ 1 ∧ exOracle.platform 0 = exOracle.platform 1) ∧
    ((exOracle.arrival 0
        + (depMinI (exData.trains.get ⟨0, by decide⟩)
            - arrMinI (exData.trains.get ⟨0, by decide⟩))) + DWELL_MINUTES ≤ exOracle.arrival 1 ∨
     (exOracle.arrival 1
        + (depMinI (exData.trains.get ⟨1, by decide⟩)
            - arrMinI (exData.trains.get ⟨1, by decide⟩))) + DWELL_MINUTES ≤ exOracle.arrival 0) :=
  ⟨⟨by decide, by decide, by decide, by decide, by decide⟩,
   c1_no_platform_overlap exData exOracle (by decide) (by decide) (by decide)
     0 1 (by decide) (by decide) (by decide) (by decide)⟩

/-- C2: on a successful solve, every successfully processed train's
record is its processed record, its assigned arrival (in minutes) is
at least its requested arrival, its stored delay is assigned minus
requested arrival and is non-negative, and its rendered departure is
assigned arrival plus the requested duration — so assigned departure
minus assigned arrival equals requested departure minus requested
arrival. -/
theorem c2_arrival_delay_duration (data : ScheduleRequest) (o : SolverOracle)
    (procFail : Nat → Bool)
    (hst : o.status = CpStatus.OPTIMAL ∨ o.status = CpStatus.FEASIBLE)
    (hsat : SatAssign data.trains (horizonOf data) o)
    (hv : validate_schedule_data data = [])
    (i : Nat) (hi : i < data.trains.length) (hpf : procFail i = false) :
    (get_optimized_schedule data o (fun _ => false) procFail).trains.get? i
        = some (processed_train o i (data.trains.get ⟨i, hi⟩)) ∧
    arrMinI (data.trains.get ⟨i, hi⟩) ≤ o.arrival i ∧
    (processed_train o i (data.trains.get ⟨i, hi⟩)).delay_minutes
        = some (o.arrival i - arrMinI (data.trains.get ⟨i, hi⟩)) ∧
    0 ≤ o.arrival i - arrMinI (data.trains.get ⟨i, hi⟩) ∧
    (processed_train o i (data.trains.get ⟨i, hi⟩)).departure
        = minutes_to_time (o.arrival i
            + (depMinI (data.trains.get ⟨i, hi⟩) - arrMinI (data.trains.get ⟨i, hi⟩))) ∧
    (o.arrival i + (depMinI (data.trains.get ⟨i, hi⟩) - arrMinI (data.trains.get ⟨i, hi⟩)))
        - o.arrival i
      = depMinI (data.trains.get ⟨i, hi⟩) - arrMinI (data.trains.get ⟨i, hi⟩) := by
  have harr : arrMinI (data.trains.get ⟨i, hi⟩) ≤ o.arrival i := (hsat.1 i hi).1
  refine ⟨?_, harr, rfl, by omega, rfl, by ring⟩
  rw [gos_reaches_solver data o (fun _ => false) procFail hv (fun _ => rfl)]
  have hget := buildTrains_get? o procFail data.trains 0 i hi
  rw [Nat.zero_add, hpf] at hget
  rcases hst with h | h <;> rw [h] <;>
    simpa only [successResult, Bool.false_eq_true, if_false] using hget

/-- Witness for C2 on exData with exOracle, at train 1 (delayed by 22
minutes there). -/
theorem c2_arrival_delay_duration_witness :
    ((exOracle.status = CpStatus.OPTIMAL ∨ exOracle.status = CpStatus.FEASIBLE) ∧
     SatAssign exData.trains (horizonOf exData) exOracle ∧
     validate_schedule_data exData = []) ∧
    ((get_optimized_schedule exData exOracle (fun _ => false) (fun _ => false)).trains.get? 1
        = some (processed_train exOracle 1 (exData.trains.get ⟨1, by decide⟩)) ∧
     arrMinI (exData.trains.get ⟨1, by decide⟩) ≤ exOracle.arrival 1 ∧
     (processed_train exOracle 1 (exData.trains.get ⟨1, by decide⟩)).delay_minutes
        = some (exOracle.arrival 1 - arrMinI (exData.trains.get ⟨1, by decide⟩)) ∧
     0 ≤ exOracle.arrival 1 - arrMinI (exData.trains.get ⟨1, by decide⟩) ∧
     (processed_train exOracle 1 (exData.trains.get ⟨1, by decide⟩)).departure
        = minutes_to_time (exOracle.arrival 1
            + (depMinI (exData.trains.get ⟨1, by decide⟩)
                - arrMinI (exData.trains.get ⟨1, by decide⟩))) ∧
     (exOracle.arrival 1
        + (depMinI (exData.trains.get ⟨1, by decide⟩)
            - arrMinI (exData.trains.get ⟨1, by decide⟩))) - exOracle.arrival 1
       = depMinI (exData.trains.get ⟨1, by decide⟩)
           - arrMinI (exData.trains.get ⟨1, by decide⟩)) :=
  ⟨⟨by decide, by decide, by decide⟩,
   c2_arrival_delay_duration exData exOracle (fun _ => false) (by decide) (by decide)
     (by decide) 1 (by decide) (by decide)⟩

/-- C3: get_optimized_schedule is a total function (it never raises to
its caller), and on every reachable solve whose status is INFEASIBLE,
UNKNOWN or MODEL_INVALID it returns the original schedule — every
train keeps its requested times and platform, with the original
arrival kept under "scheduled" and an explanatory note — together with
stats status "failed" and the human-readable status name as reason. -/
theorem c3_solver_failure_fallback (data : ScheduleRequest) (o : SolverOracle)
    (conFail procFail : Nat → Bool)
    (hv : validate_schedule_data data = [])
    (hcf : ∀ k, conFail k = false)
    (hst : o.status = CpStatus.INFEASIBLE ∨ o.status = CpStatus.UNKNOWN
            ∨ o.status = CpStatus.MODEL_INVALID) :
    (get_optimized_schedule data o conFail procFail).trains
        = data.trains.map (fallback_train
            ("Original schedule (optimization failed: " ++ status_name o.status ++ ")")) ∧
    (get_optimized_schedule data o conFail procFail).optimization_stats
        = some { status := "failed", reason := some (status_name o.status),
                 fallback_used := some true } ∧
    ∀ note (t : Train),
      (fallback_train note t).train_id = t.train_id ∧
      (fallback_train note t).arrival = t.arrival ∧
      (fallback_train note t).departure = t.departure ∧
      (fallback_train note t).platform = t.platform ∧
      (fallback_train note t).priority = t.priority := by
  rw [gos_reaches_solver data o conFail procFail hv hcf]
  rcases hst with h | h | h <;> rw [h] <;>
    exact ⟨rfl, rfl, fun note t => ⟨rfl, rfl, rfl, rfl, rfl⟩⟩

/-- Witness for C3 on exData with an INFEASIBLE solver status. -/
theorem c3_solver_failure_fallback_witness :
    (validate_schedule_data exData = [] ∧
     (exInfeasibleOracle.status = CpStatus.INFEASIBLE
       ∨ exInfeasibleOracle.status = CpStatus.UNKNOWN
       ∨ exInfeasibleOracle.status = CpStatus.MODEL_INVALID)) ∧
    ((get_optimized_schedule exData exInfeasibleOracle (fun _ => false) (fun _ => false)).trains
        = exData.trains.map (fallback_train
            ("Original schedule (optimization failed: "
              ++ status_name exInfeasibleOracle.status ++ ")")) ∧
     (get_optimized_schedule exData exInfeasibleOracle (fun _ => false) (fun _ => false)).optimization_stats
        = some { status := "failed", reason := some (status_name exInfeasibleOracle.status),
                 fallback_used := some true } ∧
     ∀ note (t : Train),
       (fallback_train note t).train_id = t.train_id ∧
       (fallback_train note t).arrival = t.arrival ∧
       (fallback_train note t).departure = t.departure ∧
       (fallback_train note t).platform = t.platform ∧
       (fallback_train note t).priority = t.priority) :=
  ⟨⟨by decide, by decide⟩,
   c3_solver_failure_fallback exData exInfeasibleOracle (fun _ => false) (fun _ => false)
     (by decide) (fun _ => rfl) (by decide)⟩

theorem mem_of_mem_sortByArrival {t : Train} {ts : List Train}
    (h : t ∈ sortByArrival ts) : t ∈ ts :=
  (List.perm_insertionSort (fun a b => arrKey a ≤ arrKey b) ts).mem_iff.mp h

theorem adjacentConflicts_eq_spec (p : Int) :
    ∀ s : List Train,
      (∀ t ∈ s, (time_to_minutes t.arrival).isSome ∧ (time_to_minutes t.departure).isSome) →
      adjacentConflicts p s = spec_group_conflicts p s := by
  intro s
  induction s with
  | nil => intro _; rfl
  | cons a rest ih =>
    intro hp
    cases rest with
    | nil => rfl
    | cons b rest2 =>
      have hrest := fun t ht => hp t (List.mem_cons_of_mem a ht)
      have ha := (hp a (List.mem_cons_self a _)).2
      have hb := (hp b (List.mem_cons_of_mem a (List.mem_cons_self b _))).1
      obtain ⟨cd, hcd⟩ := Option.isSome_iff_exists.mp ha
      obtain ⟨na, hna⟩ := Option.isSome_iff_exists.mp hb
      have hstep := ih hrest
      simp only [adjacentConflicts, spec_group_conflicts, List.tail_cons,
        List.zip_cons_cons, List.filterMap_cons, pairConflict, arrKey, depKey,
        hcd, hna, Option.getD_some] at hstep ⊢
      by_cases h : na < cd
      · simp only [if_pos h, hstep]
        rfl
      · simp only [if_neg h, hstep, List.nil_append]

/-- C5: the conflicts check_for_overlaps records are exactly one entry
(platform, both train ids, the earlier train's departure string, the
later train's arrival string) for every adjacent pair of each
platform's arrival-sorted group whose earlier requested departure
strictly exceeds the later requested arrival, without any dwell
buffer; all conflicts are collected, the batch passes iff the list is
empty, and a non-empty list makes the optimize endpoint reject the
whole batch with HTTP 400 before get_optimized_schedule runs. -/
theorem c5_conflict_detection (data : ScheduleRequest) (o : SolverOracle)
    (conFail procFail : Nat → Bool)
    (hparse : ∀ t ∈ data.trains,
      (time_to_minutes t.arrival).isSome ∧ (time_to_minutes t.departure).isSome)
    (hne : data.trains ≠ []) :
    conflictsOf data.trains = spec_conflicts data.trains ∧
    (check_for_overlaps data.trains = .ok () ↔ spec_conflicts data.trains = []) ∧
    (spec_conflicts data.trains ≠ [] →
      optimize data o conFail procFail
        = .error
            { status_code := 400,
              detail := "Schedule conflicts detected: "
                ++ String.intercalate "; " ((conflictsOf data.trains).map conflict_line) }) := by
  have hEq : conflictsOf data.trains = spec_conflicts data.trains := by
    simp only [conflictsOf, spec_conflicts]
    congr 1
    funext p
    refine adjacentConflicts_eq_spec p _ (fun t ht => ?_)
    exact hparse t (List.mem_of_mem_filter (mem_of_mem_sortByArrival ht))
  refine ⟨hEq, ?_, ?_⟩
  · simp only [check_for_overlaps, hEq]
    by_cases h : spec_conflicts data.trains = []
    · simp [h]
    · simp [h]
  · intro hc
    have hch : check_for_overlaps data.trains
        = .error
            { status_code := 400,
              detail := "Schedule conflicts detected: "
                ++ String.intercalate "; " ((conflictsOf data.trains).map conflict_line) } := by
      simp only [check_for_overlaps, hEq]
      rw [if_neg hc]
    simp [optimize, hne, hch]

/-- Witness for C5 on the spec's own example (platform 1, 08:00-08:05
against 08:03-08:08). -/
theorem c5_conflict_detection_witness :
    ((∀ t ∈ c5Data.trains,
        (time_to_minutes t.arrival).isSome ∧ (time_to_minutes t.departure).isSome) ∧
     c5Data.trains ≠ [] ∧ spec_conflicts c5Data.trains ≠ []) ∧
    (conflictsOf c5Data.trains = spec_conflicts c5Data.trains ∧
     (check_for_overlaps c5Data.trains = .ok () ↔ spec_conflicts c5Data.trains = []) ∧
     (spec_conflicts c5Data.trains ≠ [] →
       optimize c5Data exOracle (fun _ => false) (fun _ => false)
         = .error
             { status_code := 400,
               detail := "Schedule conflicts detected: "
                 ++ String.intercalate "; " ((conflictsOf c5Data.trains).map conflict_line) })) :=
  ⟨⟨by decide, by decide, by decide⟩,
   c5_conflict_detection c5Data exOracle (fun _ => false) (fun _ => false)
     (by decide) (by decide)⟩

/-- Counterexample for C4: on exData with a construction failure for
train 0 only, the claim entails that the non-failing train 1 still
gets its optimized record inside a successful-status result; in fact
the whole batch is diverted to the error fallback and no train is
optimized. -/
theorem c4_counterexample :
    ¬ ((get_optimized_schedule exData exOracle (fun i => i == 0) (fun _ => false)).trains.get? 1
          = some (processed_train exOracle 1 exTrainB) ∧
       ((get_optimized_schedule exData exOracle (fun i => i == 0) (fun _ => false)).optimization_stats.map
            OptStats.status = some "optimal" ∨
        (get_optimized_schedule exData exOracle (fun i => i == 0) (fun _ => false)).optimization_stats.map
            OptStats.status = some "feasible")) := by
  decide

/-- C4 (amended): a single train's variable-construction failure aborts
the optimization of the whole batch: the function still never raises,
but every train (the non-failing ones included) is returned with its
original values under stats status "error".  Per-train isolation holds
instead for solution-processing failures: on a successful solve a
train whose processing fails alone falls back to its plain dump while
every other train receives its processed record. -/
theorem c4_construction_vs_processing (data : ScheduleRequest) (o : SolverOracle)
    (conFail procFail : Nat → Bool)
    (hv : validate_schedule_data data = []) :
    ((∃ i, i < data.trains.length ∧ conFail i = true) →
      ∃ t, firstCF conFail 0 data.trains = some t ∧
        get_optimized_schedule data o conFail procFail
          = emergency_fallback data
              ("Failed to create optimization variables for train " ++ t.train_id) ∧
        (emergency_fallback data
            ("Failed to create optimization variables for train " ++ t.train_id)).optimization_stats
          = some { status := "error",
                   error := some ("Failed to create optimization variables for train "
                            ++ t.train_id),
                   fallback_used := some true }) ∧
    ((∀ k, conFail k = false) →
      (o.status = CpStatus.OPTIMAL ∨ o.status = CpStatus.FEASIBLE) →
      ∀ j (hj : j < data.trains.length),
        (get_optimized_schedule data o conFail procFail).trains.get? j
          = some (if procFail j then model_dump (data.trains.get ⟨j, hj⟩)
                  else processed_train o j (data.trains.get ⟨j, hj⟩))) := by
  have hne := trains_ne_nil_of_validate data hv
  constructor
  · rintro ⟨i, hi, hcfi⟩
    obtain ⟨t, hft⟩ := firstCF_isSome_of_mem conFail data.trains 0 ⟨i, hi, by simpa using hcfi⟩
    refine ⟨t, hft, ?_, rfl⟩
    simp only [get_optimized_schedule, hv, hft]
    simp [hne]
  · intro hcf hst j hj
    rw [gos_reaches_solver data o conFail procFail hv hcf]
    have hget := buildTrains_get? o procFail data.trains 0 j hj
    rw [Nat.zero_add] at hget
    rcases hst with h | h <;> rw [h] <;> simpa only [successResult] using hget

/-- Witness for C4 (amended): the construction-failure half at
conFail = (· == 0) and the processing-isolation half at
procFail = (· == 0), both on exData. -/
theorem c4_construction_vs_processing_witness :
    (validate_schedule_data exData = [] ∧
     (∃ i, i < exData.trains.length ∧ (fun i => i == 0) i = true) ∧
     (exOracle.status = CpStatus.OPTIMAL ∨ exOracle.status = CpStatus.FEASIBLE)) ∧
    (∃ t, firstCF (fun i => i == 0) 0 exData.trains = some t ∧
       get_optimized_schedule exData exOracle (fun i => i == 0) (fun _ => false)
         = emergency_fallback exData
             ("Failed to create optimization variables for train " ++ t.train_id) ∧
       (emergency_fallback exData
           ("Failed to create optimization variables for train " ++ t.train_id)).optimization_stats
         = some { status := "error",
                  error := some ("Failed to create optimization variables for train "
                           ++ t.train_id),
                  fallback_used := some true }) ∧
    (∀ j (hj : j < exData.trains.length),
       (get_optimized_schedule exData exOracle (fun _ => false) (fun i => i == 0)).trains.get? j
         = some (if (fun i => i == 0) j then model_dump (exData.trains.get ⟨j, hj⟩)
                 else processed_train exOracle j (exData.trains.get ⟨j, hj⟩))) :=
  ⟨⟨by decide, by decide, by decide⟩,
   (c4_construction_vs_processing exData exOracle (fun i => i == 0) (fun _ => false)
      (by decide)).1 (by decide),
   (c4_construction_vs_processing exData exOracle (fun _ => false) (fun i => i == 0)
      (by decide)).2 (fun _ => rfl) (by decide)⟩

/-- Counterexample for C7: the empty Schedule Request is not accepted —
the pydantic trains validator rejects it and the optimize endpoint
answers HTTP 400 instead of producing a schedule. -/
theorem c7_counterexample :
    check_trains_not_empty [] ≠ Except.ok ([] : List Train) ∧
    optimize { date := "2025-01-01", trains := [] } exOracle (fun _ => false) (fun _ => false)
      = Except.error { status_code := 400, detail := "No trains provided" } := by
  constructor
  · simp [check_trains_not_empty]
  · simp [optimize]

/-- C7 (amended): an empty Schedule Request is rejected rather than
accepted — by the pydantic trains validator ("At least one train must
be provided"), by validate_schedule_data ("No trains provided"), and
by the optimize endpoint (HTTP 400) — while compute_metrics on an
empty schedule does yield all four KPIs equal to zero. -/
theorem c7_empty_request (d : String) (o : SolverOracle) (conFail procFail : Nat → Bool) :
    check_trains_not_empty [] = Except.error "At least one train must be provided" ∧
    validate_schedule_data { date := d, trains := [] } = ["No trains provided"] ∧
    optimize { date := d, trains := [] } o conFail procFail
      = Except.error { status_code := 400, detail := "No trains provided" } ∧
    compute_metrics []
      = { throughput_trains_per_hr := 0, avg_delay_minutes := 0,
          platform_utilization_pct := 0, punctuality_pct := 0 } := by
  refine ⟨by simp [check_trains_not_empty], rfl, by simp [optimize], rfl⟩

/-- Counterexample for C8: a feasible solve of exData (c8Oracle
satisfies the posted constraints) delays train 0 by exactly 10
minutes, and the optimizer labels it "delayed", not the "minor_delay"
bucket the three-threshold claim prescribes for 5 < delay ≤ 15. -/
theorem c8_counterexample :
    SatAssign exData.trains (horizonOf exData) c8Oracle ∧
    (get_optimized_schedule exData c8Oracle (fun _ => false) (fun _ => false)).trains.get? 0
      = some (processed_train c8Oracle 0 exTrainA) ∧
    (processed_train c8Oracle 0 exTrainA).delay_minutes = some 10 ∧
    (processed_train c8Oracle 0 exTrainA).status = some "delayed" ∧
    claim_status_bucket 10 = "minor_delay" ∧
    ("delayed" : String) ≠ "minor_delay" := by
  decide

/-- C8 (amended): every optimized train's status is the two-way bucket
of the scheduler — "on_time" for delay ≤ 5 and "delayed" for
delay > 5 — while the three-threshold bucketing (on_time ≤ 5,
minor_delay ≤ 15, delayed above 15) belongs to predict_delays, which
buckets predicted delays, not optimizer output. -/
theorem c8_status_buckets (data : ScheduleRequest) (o : SolverOracle)
    (procFail : Nat → Bool)
    (hst : o.status = CpStatus.OPTIMAL ∨ o.status = CpStatus.FEASIBLE)
    (hv : validate_schedule_data data = [])
    (i : Nat) (hi : i < data.trains.length) (hpf : procFail i = false) :
    (get_optimized_schedule data o (fun _ => false) procFail).trains.get? i
        = some (processed_train o i (data.trains.get ⟨i, hi⟩)) ∧
    (processed_train o i (data.trains.get ⟨i, hi⟩)).status
        = some (scheduler_status_bucket
            (o.arrival i - arrMinI (data.trains.get ⟨i, hi⟩))) ∧
    (∀ delay : Int,
      (delay ≤ 5 → scheduler_status_bucket delay = "on_time") ∧
      (5 < delay → scheduler_status_bucket delay = "delayed")) ∧
    (∀ delay : Int,
      (delay ≤ 5 → ai_status_bucket delay = "on_time") ∧
      (5 < delay ∧ delay ≤ 15 → ai_status_bucket delay = "minor_delay") ∧
      (15 < delay → ai_status_bucket delay = "delayed")) := by
  refine ⟨?_, rfl, ?_, ?_⟩
  · rw [gos_reaches_solver data o (fun _ => false) procFail hv (fun _ => rfl)]
    have hget := buildTrains_get? o procFail data.trains 0 i hi
    rw [Nat.zero_add, hpf] at hget
    rcases hst with h | h <;> rw [h] <;>
      simpa only [successResult, Bool.false_eq_true, if_false] using hget
  · intro delay
    constructor
    · intro h; simp only [scheduler_status_bucket]; rw [if_neg (by omega)]
    · intro h; simp only [scheduler_status_bucket]; rw [if_pos (by omega)]
  · intro delay
    refine ⟨?_, ?_, ?_⟩
    · intro h; simp only [ai_status_bucket]; rw [if_pos (by omega)]
    · intro h; simp only [ai_status_bucket]; rw [if_neg (by omega), if_pos (by omega)]
    · intro h; simp only [ai_status_bucket]; rw [if_neg (by omega), if_neg (by omega)]

/-- Witness for C8 (amended) on exData with c8Oracle at train 0. -/
theorem c8_status_buckets_witness :
    ((c8Oracle.status = CpStatus.OPTIMAL ∨ c8Oracle.status = CpStatus.FEASIBLE) ∧
     validate_schedule_data exData = []) ∧
    ((get_optimized_schedule exData c8Oracle (fun _ => false) (fun _ => false)).trains.get? 0
        = some (processed_train c8Oracle 0 (exData.trains.get ⟨0, by decide⟩)) ∧
     (processed_train c8Oracle 0 (exData.trains.get ⟨0, by decide⟩)).status
        = some (scheduler_status_bucket
            (c8Oracle.arrival 0 - arrMinI (exData.trains.get ⟨0, by decide⟩))) ∧
     (∀ delay : Int,
       (delay ≤ 5 → scheduler_status_bucket delay = "on_time") ∧
       (5 < delay → scheduler_status_bucket delay = "delayed")) ∧
     (∀ delay : Int,
       (delay ≤ 5 → ai_status_bucket delay = "on_time") ∧
       (5 < delay ∧ delay ≤ 15 → ai_status_bucket delay = "minor_delay") ∧
       (15 < delay → ai_status_bucket delay = "delayed"))) :=
  ⟨⟨by decide, by decide⟩,
   c8_status_buckets exData c8Oracle (fun _ => false) (by decide) (by decide) 0
     (by decide) (by decide)⟩

theorem metricsStep_delays (acc : MAcc) (t : MTrain) :
    (metricsStep acc t).delays
      = acc.delays ++
          (if (t.arrival.bind time_to_minutes).isSome
                && (t.departure.bind time_to_minutes).isSome
           then (delayValue t).toList else []) := by
  rcases harr : t.arrival.bind time_to_minutes with _ | a <;>
    rcases hdep : t.departure.bind time_to_minutes with _ | d <;>
      simp only [metricsStep, harr, hdep, Option.isSome_none, Option.isSome_some,
        Bool.false_and, Bool.true_and, Bool.and_false, Bool.and_self,
        if_false, if_true, List.append_nil, Bool.false_eq_true]
  rcases hdv : delayValue t with _ | n <;>
    rcases t.platform with _ | p <;>
      simp only [Option.toList] <;> split_ifs <;> simp

theorem metricsFold_delays :
    ∀ (ts : List MTrain) (acc : MAcc),
      (ts.foldl metricsStep acc).delays
        = acc.delays ++ (includedRows ts).filterMap delayValue := by
  intro ts
  induction ts with
  | nil => intro acc; simp [includedRows]
  | cons t ts ih =>
    intro acc
    rw [List.foldl_cons, ih, metricsStep_delays]
    by_cases h : (t.arrival.bind time_to_minutes).isSome
        && (t.departure.bind time_to_minutes).isSome
    · rcases hdv : delayValue t with _ | n <;>
        simp [includedRows, h, hdv, Option.toList]
    · simp [includedRows, h]

/-- Counterexample for C6: in c6Rows the first train carries a numeric
delay of 10 and the second train's delay_minutes key is absent; the
claim prescribes an average of 10 (the mean over exactly the numeric
delays), but compute_metrics reports 5, because the absent key
defaults to the number 0 and enters the average. -/
theorem c6_counterexample :
    (compute_metrics c6Rows).avg_delay_minutes = 5 ∧
    claim_avg_delay c6Rows = 10 ∧
    (5 : ℚ) ≠ 10 := by
  have hne : c6Rows ≠ [] := by decide
  have hd : (c6Rows.foldl metricsStep {}).delays = [10, 0] := by decide
  have hds : ((c6Rows.filterMap fun t =>
      match t.delay_minutes with | DelayVal.num n => some n | _ => none) : List Int)
      = [10] := by decide
  refine ⟨?_, ?_, by norm_num⟩
  · simp only [compute_metrics, if_neg hne, hd]
    rw [if_neg (show ¬([10, 0] : List Int) = [] by decide)]
    norm_num [round2, round_eq, List.sum_cons, List.sum_nil]
  · simp only [claim_avg_delay]
    rw [hds, if_neg (show ¬([10] : List Int) = [] by decide)]
    norm_num [round2, round_eq, List.sum_cons, List.sum_nil]

/-- C6 (amended): the delays entering the average are exactly the
delayValue of every row with parseable times — where an absent
delay_minutes key counts as the number 0 (it is not excluded), and
only a present non-numeric value is excluded and routed to the
status-text punctuality branch — and when that list is non-empty the
reported average is its mean. -/
theorem c6_avg_delay_inclusion (ts : List MTrain)
    (hne : (includedRows ts).filterMap delayValue ≠ []) :
    (ts.foldl metricsStep {}).delays = (includedRows ts).filterMap delayValue ∧
    (∀ t : MTrain, t.delay_minutes = DelayVal.absent → delayValue t = some 0) ∧
    (∀ t : MTrain, delayValue t = none ↔ t.delay_minutes = DelayVal.nonnum) ∧
    (compute_metrics ts).avg_delay_minutes
      = round2 ((((includedRows ts).filterMap delayValue).sum : ℚ)
          / ((includedRows ts).filterMap delayValue).length) := by
  have hfold : (ts.foldl metricsStep {}).delays = (includedRows ts).filterMap delayValue := by
    simpa using metricsFold_delays ts {}
  have hts : ts ≠ [] := by
    rintro rfl
    exact hne rfl
  refine ⟨hfold, ?_, ?_, ?_⟩
  · intro t h; simp [delayValue, h]
  · intro t; cases hdm : t.delay_minutes <;> simp [delayValue, hdm]
  · simp only [compute_metrics, if_neg hts, hfold, if_neg hne]

/-- Witness for C6 (amended) on c6Rows. -/
theorem c6_avg_delay_inclusion_witness :
    (includedRows c6Rows).filterMap delayValue ≠ [] ∧
    ((c6Rows.foldl metricsStep {}).delays = (includedRows c6Rows).filterMap delayValue ∧
     (∀ t : MTrain, t.delay_minutes = DelayVal.absent → delayValue t = some 0) ∧
     (∀ t : MTrain, delayValue t = none ↔ t.delay_minutes = DelayVal.nonnum) ∧
     (compute_metrics c6Rows).avg_delay_minutes
       = round2 ((((includedRows c6Rows).filterMap delayValue).sum : ℚ)
           / ((includedRows c6Rows).filterMap delayValue).length)) :=
  ⟨by decide, c6_avg_delay_inclusion c6Rows (by decide)⟩

/-- Witness for C10 at m = 1470 (one day plus 30 minutes). -/
theorem c10_minutes_to_time_wrap_witness :
    (0 : Int) ≤ 1470 ∧
    (minutes_to_time 1470 = minutes_to_time (1470 % 1440) ∧
     validHHMM (minutes_to_time 1470) ∧
     ((processed_train c10Oracle 0 c10Train).arrival = "23:50" ∧
      (processed_train c10Oracle 0 c10Train).departure = "00:45" ∧
      (processed_train c10Oracle 0 c10Train).departure.data
        < (processed_train c10Oracle 0 c10Train).arrival.data ∧
      (processed_train c10Oracle 0 c10Train).delay_minutes = some 50 ∧
      depMinI c10Train - arrMinI c10Train = 55)) :=
  ⟨by decide, c10_minutes_to_time_wrap 1470 (by decide)⟩

end TT
